import Mathlib

/-!
Shallow embedding of the monorepo's shared-database-client slice:
the Prisma/pg client (`packages/db/index.ts`), the Express REST adapter
(the `index.ts` embedded in `CICD_REFERENCE.md`), the Bun WebSocket
handler (`apps/ws/index.ts`), the SSR page render, and the storage layer
whose schema is given by `packages/db/prisma/migrations/.../migration.sql`.

Ids are generated opaque tokens (TEXT in the schema, e.g. cuid strings);
we model them as naturals handed out by a per-database counter, which is
faithful to "generated, unique, never empty".  Request-body string fields
are `Option String`, with JavaScript truthiness (`!x`): absent or empty
means falsy.  The `done` body field is an arbitrary JSON value, since the
route forwards it to the storage client without validation.
-/

namespace Monorepo

/-- A persisted User row: `User(id, username, password)` (spec §6). -/
structure User where
  id : Nat
  username : String
  password : String
  deriving Repr, DecidableEq

/-- A persisted Todo row, per `migration.sql`:
`Todo(id TEXT PK, task TEXT NOT NULL, done BOOLEAN NOT NULL DEFAULT false,
userId TEXT NOT NULL REFERENCES User(id))`. -/
structure Todo where
  id : Nat
  task : String
  done : Bool
  userId : Nat
  deriving Repr, DecidableEq

/-- The relational store's state: the two tables plus the id generator. -/
structure DBState where
  users : List User
  todos : List Todo
  nextId : Nat
  deriving Repr, DecidableEq

/-- The empty database (state after migrations, before any request). -/
def DBState.init : DBState := ⟨[], [], 0⟩

/-- Kinds of storage-round-trip failure (spec §7 StorageError taxonomy:
connectivity loss, constraint violation, timeout), plus the Prisma
client's own input-shape rejection (`typeError`). -/
inductive DbError where
  | connectivity
  | timeout
  | fkViolation
  | typeError
  deriving Repr, DecidableEq

/-- A JSON value, as far as the `done` body field is concerned. -/
inductive JVal where
  | jbool (b : Bool)
  | jstr (s : String)
  | jnum (n : Int)
  | jnull
  deriving Repr, DecidableEq

/-- `prismaClient.user.create({data:{username,password}})`: inserts one
User row with a generated id.  The User table carries no constraints, so
absent an infrastructure fault the insert succeeds. -/
def dbCreateUser (s : DBState) (username password : String) : User × DBState :=
  let u : User := ⟨s.nextId, username, password⟩
  (u, ⟨s.users ++ [u], s.todos, s.nextId + 1⟩)

/-- How the storage client reads the forwarded `done` value:
omitted (`undefined`) lets the column default `false` apply
(`DEFAULT false` in `migration.sql`); an explicit boolean is used as
given; any non-boolean value is rejected by the client's input
validation before a row is written. -/
def decodeDone : Option JVal → Except DbError Bool
  | none => .ok false
  | some (.jbool b) => .ok b
  | some _ => .error .typeError

/-- `prismaClient.todo.create({data:{task,userId,done}})`: validates the
`done` shape, then enforces the `Todo_userId_fkey` foreign key
(`migration.sql` line 12) — the insert fails with a foreign-key
violation, persisting nothing, when `userId` matches no existing
`User.id`. -/
def dbCreateTodo (s : DBState) (task : String) (userId : Nat)
    (done : Option JVal) : Except DbError (Todo × DBState) :=
  match decodeDone done with
  | .error e => .error e
  | .ok d =>
    if s.users.any (fun u => u.id == userId) then
      .ok (⟨s.nextId, task, d, userId⟩,
           ⟨s.users, s.todos ++ [⟨s.nextId, task, d, userId⟩], s.nextId + 1⟩)
    else
      .error .fkViolation

/-- `prismaClient.user.findMany()`: reads all User rows, writes nothing. -/
def dbListUsers (s : DBState) : List User × DBState := (s.users, s)

/-- `prismaClient.todo.findMany()`: reads all Todo rows, writes nothing. -/
def dbListTodos (s : DBState) : List Todo × DBState := (s.todos, s)

/-- Storage-level User deletion, per `migration.sql`'s
`ON DELETE RESTRICT`: the delete is refused while any Todo references
the User.  (No adapter in this slice ever issues a delete; this models
the storage engine's own rule.) -/
def dbDeleteUser (s : DBState) (uid : Nat) : Except DbError DBState :=
  if s.todos.any (fun t => t.userId == uid) then
    .error .fkViolation
  else
    .ok ⟨s.users.filter (fun u => u.id != uid), s.todos, s.nextId⟩

/-- JavaScript truthiness of an optional string body field:
`!x` is true exactly when the field is absent or the empty string. -/
def truthy : Option String → Bool
  | none => false
  | some s => !(s == "")

/-! ## REST adapter (the Express app in `CICD_REFERENCE.md`)

Each route is a function of the store state, the parsed request body,
and an optional injected infrastructure fault (`connectivity`/`timeout`
etc.): `fault = some e` means the storage round-trip itself throws `e`,
`fault = none` means the round-trip reaches the storage engine, whose
own outcome (constraint check, input-shape check) is computed by the
`db*` functions above.  Each route returns the HTTP response, the
resulting store state, and the number of storage calls it issued. -/

/-- A REST response body: a record / record list on success, or the
JSON error object `{error: msg}`. -/
inductive RespBody where
  | users (l : List User)
  | todos (l : List Todo)
  | user (u : User)
  | todo (t : Todo)
  | err (msg : String)
  deriving Repr, DecidableEq

/-- An HTTP response: status code and JSON body. -/
structure RestResponse where
  status : Nat
  body : RespBody
  deriving Repr, DecidableEq

/-- The fixed body of the catch-all handler:
`res.status(500).json({ error: 'Internal Server Error' })`. -/
def internalErrorBody : RespBody := .err "Internal Server Error"

/-- Parsed body of `POST /`: `const {username, password} = req.body`. -/
structure CreateUserBody where
  username : Option String
  password : Option String
  deriving Repr, DecidableEq

/-- Parsed body of `POST /todos`:
`const {task, userId, done} = req.body`.  `userId` is an id token
(generated ids are non-empty strings, hence truthy whenever present). -/
structure CreateTodoBody where
  task : Option String
  userId : Option Nat
  done : Option JVal
  deriving Repr, DecidableEq

/-- `app.get('/')`: `user.findMany()`, then `res.json(users)` (status
200) on success or the fixed 500 on a thrown error. -/
def getUsersRoute (s : DBState) (fault : Option DbError) :
    RestResponse × DBState × Nat :=
  match fault with
  | some _ => (⟨500, internalErrorBody⟩, s, 1)
  | none =>
    let (us, s') := dbListUsers s
    (⟨200, .users us⟩, s', 1)

/-- `app.get('/todos')`: `todo.findMany()`, then `res.json(todos)` on
success or the fixed 500 on a thrown error. -/
def getTodosRoute (s : DBState) (fault : Option DbError) :
    RestResponse × DBState × Nat :=
  match fault with
  | some _ => (⟨500, internalErrorBody⟩, s, 1)
  | none =>
    let (ts, s') := dbListTodos s
    (⟨200, .todos ts⟩, s', 1)

/-- `app.post('/')`: `if(!username || !password)` short-circuits with
400 before any storage call; otherwise `user.create` then 201 with the
created record, or the fixed 500 on a thrown error. -/
def postUserRoute (s : DBState) (b : CreateUserBody)
    (fault : Option DbError) : RestResponse × DBState × Nat :=
  if !(truthy b.username) || !(truthy b.password) then
    (⟨400, .err "Username and password are required"⟩, s, 0)
  else
    match fault with
    | some _ => (⟨500, internalErrorBody⟩, s, 1)
    | none =>
      let (u, s') := dbCreateUser s (b.username.getD "") (b.password.getD "")
      (⟨201, .user u⟩, s', 1)

/-- `app.post('/todos')`: `if(!task || !userId)` short-circuits with
400 before any storage call; otherwise `todo.create({data:{task,
userId, done}})` — `done` forwarded as-is, unvalidated — then 201 with
the created record, or the fixed 500 on any thrown error (including a
foreign-key violation or a `done` of the wrong type). -/
def postTodoRoute (s : DBState) (b : CreateTodoBody)
    (fault : Option DbError) : RestResponse × DBState × Nat :=
  if !(truthy b.task) || !b.userId.isSome then
    (⟨400, .err "Task and userId are required"⟩, s, 0)
  else
    match fault with
    | some _ => (⟨500, internalErrorBody⟩, s, 1)
    | none =>
      match dbCreateTodo s (b.task.getD "") (b.userId.getD 0) b.done with
      | .ok (t, s') => (⟨201, .todo t⟩, s', 1)
      | .error _ => (⟨500, internalErrorBody⟩, s, 1)

/-! ## WebSocket adapter (`apps/ws/index.ts`)

`async message(ws, message)`: awaits
`user.create({data:{username: Math.random().toString(), password:
Math.random().toString()}})`; on success sends the original message
back, on failure sends the literal `"Error creating user"`.  The random
credentials are parameters `un pw` (any strings `Math.random`
produces). -/

/-- The messages the WebSocket handler sends, the resulting store
state, and the number of storage calls it issued. -/
def wsMessage (s : DBState) (msg un pw : String)
    (fault : Option DbError) : List String × DBState × Nat :=
  match fault with
  | some _ => (["Error creating user"], s, 1)
  | none =>
    let (_, s') := dbCreateUser s un pw
    ([msg], s', 1)

/-- Events in one run of the WebSocket `message` handler, in program
order: the storage call is started, the awaited promise settles
(resolves or rejects), a message is sent to the client. -/
inductive WsEv where
  | dbStart
  | dbSettled
  | send (m : String)
  deriving Repr, DecidableEq

/-- The event trace of one `message` handler run.  Because the handler
`await`s the create, the settle event precedes every send in both the
success and the failure branch. -/
def wsTrace (msg : String) (fault : Option DbError) : List WsEv :=
  match fault with
  | some _ => [.dbStart, .dbSettled, .send "Error creating user"]
  | none => [.dbStart, .dbSettled, .send msg]

/-- Whether an event is a send. -/
def WsEv.isSend : WsEv → Bool
  | .send _ => true
  | _ => false

/-- A trace responds before the storage promise settles when some send
event occurs strictly before the first `dbSettled` event — the
observable signature of a missing `await`. -/
def respondsBeforeSettled (tr : List WsEv) : Bool :=
  (tr.takeWhile (fun e => !(e == WsEv.dbSettled))).any WsEv.isSend

/-- The unawaited-handler claim over the WebSocket source: some inbound
trigger is answered before its storage call settles. -/
def wsHasUnawaitedResponse : Prop :=
  ∃ msg fault, respondsBeforeSettled (wsTrace msg fault) = true

/-! ## SSR render adapter (the Next.js `Home` in `CICD_REFERENCE.md`)

`const users = await prismaClient.user.findMany()` then renders
`JSON.stringify(users)`; it only reads. -/

/-- The SSR render: the serialized user list and the (unchanged) store
state. -/
def ssrRender (s : DBState) : List User × DBState :=
  dbListUsers s

/-! ## Connection Pool Manager (`packages/db/index.ts`)

`const connectionString = process.env.DATABASE_URL || '';` then
`new pg.Pool({connectionString})`.  Constructing the pool opens no
connection and validates nothing; a bad connection string surfaces only
when the first operation borrows a connection. -/

/-- The pool handle: `pg.Pool` merely stores its configuration. -/
structure PgPool where
  connectionString : String
  deriving Repr, DecidableEq

/-- `process.env.DATABASE_URL || ''`: JavaScript `||` replaces a
missing or empty value with `''`. -/
def resolveConnectionString (env : Option String) : String :=
  match env with
  | none => ""
  | some s => if s == "" then "" else s

/-- `new pg.Pool({connectionString})`: total — it constructs the handle
whatever the string, performing no validation or connection attempt. -/
def mkPgPool (cs : String) : PgPool := ⟨cs⟩

/-- Module initialization of `packages/db/index.ts`: resolve the env
var, build the pool.  There is no failure path. -/
def startupDb (env : Option String) : PgPool :=
  mkPgPool (resolveConnectionString env)

/-- Modelled from the spec: the pg library's lazy connect (not part of
this repository's sources) — "connections are established lazily on
first use" and "if the connection string is malformed or the target
store is unreachable, the first operation attempted against the pool
fails with a connectivity error".  `valid` is the store side's
acceptance of a connection string; the spec requires at least that the
empty string is invalid ("Must be non-empty"). -/
def poolFirstOp (valid : String → Bool) (p : PgPool) :
    Except DbError Unit :=
  if valid p.connectionString then .ok () else .error .connectivity

/-! ## Reachability

One inbound trigger = one adapter step.  `AdapterStep s s'` holds when
some trigger handled by some adapter takes the store from `s` to `s'`;
`StorageStep` additionally allows a successful storage-level delete
(never issued by this slice, but permitted by the engine). -/

/-- One adapter-handled trigger transforming the store. -/
inductive AdapterStep : DBState → DBState → Prop where
  | getUsers (s : DBState) (fault : Option DbError) :
      AdapterStep s (getUsersRoute s fault).2.1
  | getTodos (s : DBState) (fault : Option DbError) :
      AdapterStep s (getTodosRoute s fault).2.1
  | postUser (s : DBState) (b : CreateUserBody) (fault : Option DbError) :
      AdapterStep s (postUserRoute s b fault).2.1
  | postTodo (s : DBState) (b : CreateTodoBody) (fault : Option DbError) :
      AdapterStep s (postTodoRoute s b fault).2.1
  | ws (s : DBState) (msg un pw : String) (fault : Option DbError) :
      AdapterStep s (wsMessage s msg un pw fault).2.1
  | ssr (s : DBState) :
      AdapterStep s (ssrRender s).2

/-- A storage-state transition: an adapter step, or a successful
storage-level User delete. -/
inductive StorageStep : DBState → DBState → Prop where
  | adapter {s s' : DBState} : AdapterStep s s' → StorageStep s s'
  | delete {s s' : DBState} (uid : Nat) :
      dbDeleteUser s uid = .ok s' → StorageStep s s'

/-- Store states reachable from the freshly migrated database. -/
inductive Reachable : DBState → Prop where
  | init : Reachable DBState.init
  | step {s s' : DBState} : Reachable s → StorageStep s s' → Reachable s'

/-- The referential-integrity invariant: every Todo's `userId` is some
existing User's `id`. -/
def fkInv (s : DBState) : Prop :=
  ∀ t ∈ s.todos, ∃ u ∈ s.users, u.id = t.userId

/-!  ## Theorems -/

/-- C1: a `POST /` whose username and password are both present and
non-empty performs exactly one insert and responds 201 with the created
User record, whose username and password equal the inputs; the generated
id is unique across calls — a second valid `createUser` on the resulting
state returns a record with a different id. -/
theorem createUser_valid_contract (s : DBState) (b b2 : CreateUserBody)
    (h1 : truthy b.username = true) (h2 : truthy b.password = true)
    (h3 : truthy b2.username = true) (h4 : truthy b2.password = true) :
    ∃ u u2 : User,
      postUserRoute s b none =
        (⟨201, .user u⟩, ⟨s.users ++ [u], s.todos, s.nextId + 1⟩, 1) ∧
      u.username = b.username.getD "" ∧
      u.password = b.password.getD "" ∧
      (postUserRoute (postUserRoute s b none).2.1 b2 none).1 =
        ⟨201, .user u2⟩ ∧
      u2.username = b2.username.getD "" ∧
      u2.password = b2.password.getD "" ∧
      u2.id ≠ u.id := by
  refine ⟨⟨s.nextId, b.username.getD "", b.password.getD ""⟩,
    ⟨s.nextId + 1, b2.username.getD "", b2.password.getD ""⟩, ?_⟩
  simp [postUserRoute, h1, h2, h3, h4, dbCreateUser]

/-- C1 witness: the contract at a concrete state and concrete bodies. -/
theorem createUser_valid_contract_witness :
    truthy (some "alice") = true ∧ truthy (some "p1") = true ∧
    truthy (some "bob") = true ∧ truthy (some "p2") = true ∧
    ∃ u u2 : User,
      postUserRoute DBState.init ⟨some "alice", some "p1"⟩ none =
        (⟨201, .user u⟩,
         ⟨DBState.init.users ++ [u], DBState.init.todos,
          DBState.init.nextId + 1⟩, 1) ∧
      u.username = (some "alice").getD "" ∧
      u.password = (some "p1").getD "" ∧
      (postUserRoute (postUserRoute DBState.init ⟨some "alice", some "p1"⟩ none).2.1
          ⟨some "bob", some "p2"⟩ none).1 = ⟨201, .user u2⟩ ∧
      u2.username = (some "bob").getD "" ∧
      u2.password = (some "p2").getD "" ∧
      u2.id ≠ u.id :=
  ⟨by decide, by decide, by decide, by decide,
   createUser_valid_contract DBState.init ⟨some "alice", some "p1"⟩
     ⟨some "bob", some "p2"⟩ (by decide) (by decide) (by decide) (by decide)⟩

/-- C2: a `POST /` missing username or password is answered 400 with
the route's error body, the store is untouched, and zero storage calls
are issued, whatever the storage layer would have done. -/
theorem createUser_missing_field_short_circuits (s : DBState)
    (b : CreateUserBody) (fault : Option DbError)
    (h : b.username = none ∨ b.password = none) :
    postUserRoute s b fault =
      (⟨400, .err "Username and password are required"⟩, s, 0) := by
  rcases h with h | h <;> simp [postUserRoute, truthy, h]

/-- C2 witness: a body missing the password is rejected with no
storage call. -/
theorem createUser_missing_field_witness :
    ((⟨some "bob", none⟩ : CreateUserBody).username = none ∨
      (⟨some "bob", none⟩ : CreateUserBody).password = none) ∧
    postUserRoute DBState.init ⟨some "bob", none⟩ none =
      (⟨400, .err "Username and password are required"⟩, DBState.init, 0) :=
  ⟨Or.inr rfl,
   createUser_missing_field_short_circuits DBState.init ⟨some "bob", none⟩
     none (Or.inr rfl)⟩

/-- C5: every inbound WebSocket message triggers exactly one
`createUser` call; on success the original message is echoed back and
the new User row is appended to storage; on failure the sender receives
exactly the literal `"Error creating user"` and the message is not
echoed. -/
theorem ws_message_contract (s : DBState) (msg un pw : String) :
    (∀ fault, (wsMessage s msg un pw fault).2.2 = 1) ∧
    wsMessage s msg un pw none =
      ([msg], ⟨s.users ++ [⟨s.nextId, un, pw⟩], s.todos, s.nextId + 1⟩, 1) ∧
    (∀ e, wsMessage s msg un pw (some e) =
      (["Error creating user"], s, 1)) := by
  refine ⟨fun fault => ?_, rfl, fun e => rfl⟩
  cases fault <;> rfl

/-- C9 as stated is false: no run of the WebSocket `message` handler
sends any response before its awaited storage call has settled, in
either the success or the failure branch. -/
theorem ws_no_unawaited_response : ¬ wsHasUnawaitedResponse := by
  rintro ⟨msg, fault, h⟩
  have hf : respondsBeforeSettled (wsTrace msg fault) = false := by
    cases fault <;> rfl
  rw [hf] at h
  exact Bool.false_ne_true h

/-- C9 amended: the WebSocket `message` handler awaits its storage
call — for every inbound message and every storage outcome the handler
sends no response before the create settles, and does send one after
it has settled. -/
theorem ws_awaits_before_responding (msg : String) (fault : Option DbError) :
    respondsBeforeSettled (wsTrace msg fault) = false ∧
    (wsTrace msg fault).any WsEv.isSend = true := by
  cases fault <;> exact ⟨rfl, rfl⟩

/-- A one-user store, used by concrete witnesses. -/
def oneUserState : DBState := ⟨[⟨0, "alice", "p1"⟩], [], 1⟩

/-- C7: on all four routes, every storage-round-trip failure — whatever
its kind — maps to status 500 with the same fixed error body, with no
error-kind differentiation; on success the record or record list comes
back as a structured body with a success status (200 for reads, 201
for creates). -/
theorem rest_error_uniform (s : DBState) (bu : CreateUserBody)
    (bt : CreateTodoBody) (e : DbError)
    (hu1 : truthy bu.username = true) (hu2 : truthy bu.password = true)
    (ht1 : truthy bt.task = true) (ht2 : bt.userId.isSome = true) :
    getUsersRoute s (some e) = (⟨500, internalErrorBody⟩, s, 1) ∧
    getTodosRoute s (some e) = (⟨500, internalErrorBody⟩, s, 1) ∧
    postUserRoute s bu (some e) = (⟨500, internalErrorBody⟩, s, 1) ∧
    postTodoRoute s bt (some e) = (⟨500, internalErrorBody⟩, s, 1) ∧
    (∀ (uid : Nat) (err : DbError), bt.userId = some uid →
      dbCreateTodo s (bt.task.getD "") uid bt.done = .error err →
      postTodoRoute s bt none = (⟨500, internalErrorBody⟩, s, 1)) ∧
    getUsersRoute s none = (⟨200, .users s.users⟩, s, 1) ∧
    getTodosRoute s none = (⟨200, .todos s.todos⟩, s, 1) ∧
    (postUserRoute s bu none).1.status = 201 ∧
    (∀ (uid : Nat) (t : Todo) (s' : DBState), bt.userId = some uid →
      dbCreateTodo s (bt.task.getD "") uid bt.done = .ok (t, s') →
      postTodoRoute s bt none = (⟨201, .todo t⟩, s', 1)) := by
  refine ⟨rfl, rfl, ?_, ?_, ?_, rfl, rfl, ?_, ?_⟩
  · simp [postUserRoute, hu1, hu2]
  · obtain ⟨uid, huid⟩ := Option.isSome_iff_exists.mp ht2
    simp [postTodoRoute, ht1, huid]
  · intro uid err huid hdb
    simp [postTodoRoute, ht1, huid, hdb]
  · simp [postUserRoute, hu1, hu2, dbCreateUser]
  · intro uid t s' huid hdb
    simp [postTodoRoute, ht1, huid, hdb]

/-- C7 witness: a connectivity fault on each route, valid POST bodies. -/
theorem rest_error_uniform_witness :
    truthy (some "alice") = true ∧ truthy (some "p1") = true ∧
    truthy (some "x") = true ∧ (some (0 : Nat)).isSome = true ∧
    (getUsersRoute oneUserState (some .connectivity) =
      (⟨500, internalErrorBody⟩, oneUserState, 1) ∧
    getTodosRoute oneUserState (some .connectivity) =
      (⟨500, internalErrorBody⟩, oneUserState, 1) ∧
    postUserRoute oneUserState ⟨some "alice", some "p1"⟩ (some .connectivity) =
      (⟨500, internalErrorBody⟩, oneUserState, 1) ∧
    postTodoRoute oneUserState ⟨some "x", some 0, none⟩ (some .connectivity) =
      (⟨500, internalErrorBody⟩, oneUserState, 1) ∧
    (∀ (uid : Nat) (err : DbError),
      (⟨some "x", some 0, none⟩ : CreateTodoBody).userId = some uid →
      dbCreateTodo oneUserState
        (((⟨some "x", some 0, none⟩ : CreateTodoBody).task).getD "") uid
        ((⟨some "x", some 0, none⟩ : CreateTodoBody).done) = .error err →
      postTodoRoute oneUserState ⟨some "x", some 0, none⟩ none =
        (⟨500, internalErrorBody⟩, oneUserState, 1)) ∧
    getUsersRoute oneUserState none =
      (⟨200, .users oneUserState.users⟩, oneUserState, 1) ∧
    getTodosRoute oneUserState none =
      (⟨200, .todos oneUserState.todos⟩, oneUserState, 1) ∧
    (postUserRoute oneUserState ⟨some "alice", some "p1"⟩ none).1.status = 201 ∧
    (∀ (uid : Nat) (t : Todo) (s' : DBState),
      (⟨some "x", some 0, none⟩ : CreateTodoBody).userId = some uid →
      dbCreateTodo oneUserState
        (((⟨some "x", some 0, none⟩ : CreateTodoBody).task).getD "") uid
        ((⟨some "x", some 0, none⟩ : CreateTodoBody).done) = .ok (t, s') →
      postTodoRoute oneUserState ⟨some "x", some 0, none⟩ none =
        (⟨201, .todo t⟩, s', 1))) :=
  ⟨by decide, by decide, by decide, by decide,
   rest_error_uniform oneUserState ⟨some "alice", some "p1"⟩
     ⟨some "x", some 0, none⟩ .connectivity
     (by decide) (by decide) (by decide) (by decide)⟩

/-- C10: a `POST /todos` with task and userId present always issues the
storage call (one call, never the 400 short-circuit), answering 201 or
500 only; a `done` of non-boolean type is not rejected as a client
error but surfaces as the generic 500. -/
theorem todo_done_unvalidated (s : DBState) (b : CreateTodoBody)
    (ht : truthy b.task = true) (hu : b.userId.isSome = true) :
    (∀ fault, (postTodoRoute s b fault).2.2 = 1 ∧
      ((postTodoRoute s b fault).1.status = 201 ∨
        (postTodoRoute s b fault).1.status = 500)) ∧
    (∀ v : JVal, b.done = some v → (∀ bl, v ≠ .jbool bl) →
      postTodoRoute s b none = (⟨500, internalErrorBody⟩, s, 1)) := by
  obtain ⟨uid, huid⟩ := Option.isSome_iff_exists.mp hu
  constructor
  · intro fault
    cases fault with
    | some e => simp [postTodoRoute, ht, huid]
    | none =>
      cases hdb : dbCreateTodo s (b.task.getD "") uid b.done with
      | ok p =>
        obtain ⟨t, s'⟩ := p
        simp [postTodoRoute, ht, huid, hdb]
      | error e => simp [postTodoRoute, ht, huid, hdb]
  · intro v hv hnb
    have hdec : decodeDone b.done = .error .typeError := by
      rw [hv]
      cases v with
      | jbool bl => exact absurd rfl (hnb bl)
      | jstr s => rfl
      | jnum n => rfl
      | jnull => rfl
    simp [postTodoRoute, ht, huid, dbCreateTodo, hdec]

/-- Inversion for a successful `todo.create`: the resulting state
appends exactly the created row, and the foreign key was satisfied. -/
theorem dbCreateTodo_ok_inv (s : DBState) (task : String) (uid : Nat)
    (done : Option JVal) (t : Todo) (s' : DBState)
    (h : dbCreateTodo s task uid done = .ok (t, s')) :
    s' = ⟨s.users, s.todos ++ [t], s.nextId + 1⟩ ∧
    t.userId = uid ∧ (∃ u ∈ s.users, u.id = uid) := by
  unfold dbCreateTodo at h
  split at h
  · cases h
  · rename_i d hd
    split at h
    · rename_i hex
      injection h with h'
      injection h' with hteq hseq
      subst hteq
      subst hseq
      obtain ⟨u, hu, he⟩ := List.any_eq_true.mp hex
      exact ⟨rfl, rfl, u, hu, by simpa using he⟩
    · cases h

/-- Every adapter-handled trigger either leaves the store unchanged,
appends exactly one User row, or appends exactly one Todo row whose
`userId` matched an existing User. -/
theorem adapterStep_shape {s s' : DBState} (h : AdapterStep s s') :
    s' = s ∨
    (∃ u, s' = ⟨s.users ++ [u], s.todos, s.nextId + 1⟩) ∨
    (∃ t, s' = ⟨s.users, s.todos ++ [t], s.nextId + 1⟩ ∧
      ∃ x ∈ s.users, x.id = t.userId) := by
  cases h with
  | getUsers fault => cases fault <;> exact Or.inl rfl
  | getTodos fault => cases fault <;> exact Or.inl rfl
  | ssr => exact Or.inl rfl
  | ws msg un pw fault =>
    cases fault with
    | some e => exact Or.inl rfl
    | none => exact Or.inr (Or.inl ⟨⟨s.nextId, un, pw⟩, rfl⟩)
  | postUser b fault =>
    by_cases hc : truthy b.username = false ∨ truthy b.password = false
    · left; simp [postUserRoute, hc]
    · cases fault with
      | some e => left; simp [postUserRoute, hc]
      | none =>
        right; left
        refine ⟨⟨s.nextId, b.username.getD "", b.password.getD ""⟩, ?_⟩
        simp [postUserRoute, hc, dbCreateUser]
  | postTodo b fault =>
    by_cases hc : truthy b.task = false ∨ b.userId = none
    · left; simp [postTodoRoute, hc]
    · cases fault with
      | some e => left; simp [postTodoRoute, hc]
      | none =>
        cases hdb : dbCreateTodo s (b.task.getD "") (b.userId.getD 0) b.done with
        | error e => left; simp [postTodoRoute, hc, hdb]
        | ok p =>
          obtain ⟨t, s''⟩ := p
          obtain ⟨hshape, -, hx⟩ :=
            dbCreateTodo_ok_inv s (b.task.getD "") (b.userId.getD 0) b.done
              t s'' hdb
          right; right
          refine ⟨t, ?_, ?_⟩
          · simp [postTodoRoute, hc, hdb, hshape]
          · obtain ⟨hfk1, hfk2⟩ :=
              dbCreateTodo_ok_inv s (b.task.getD "") (b.userId.getD 0) b.done
                t s'' hdb |>.2
            obtain ⟨u, hu, he⟩ := hfk2
            exact ⟨u, hu, by rw [he, hfk1]⟩

/-- C3: a `POST /todos` with non-empty task, a `userId` naming an
existing User, and `done` omitted creates a Todo whose `done` is the
column default `false` and answers 201 with the created record; a
`POST /todos` missing task or userId is answered 400 with nothing
stored and no storage call. -/
theorem createTodo_done_defaults_false (s : DBState) (b : CreateTodoBody)
    (uid : Nat) (ht : truthy b.task = true) (hu : b.userId = some uid)
    (hdone : b.done = none)
    (hex : s.users.any (fun u => u.id == uid) = true) :
    (∃ t : Todo,
      postTodoRoute s b none =
        (⟨201, .todo t⟩, ⟨s.users, s.todos ++ [t], s.nextId + 1⟩, 1) ∧
      t.done = false ∧ t.task = b.task.getD "" ∧ t.userId = uid) ∧
    (∀ (b' : CreateTodoBody) (fault : Option DbError),
      b'.task = none ∨ b'.userId = none →
      postTodoRoute s b' fault =
        (⟨400, .err "Task and userId are required"⟩, s, 0)) := by
  constructor
  · refine ⟨⟨s.nextId, b.task.getD "", false, uid⟩, ?_, rfl, rfl, rfl⟩
    simp [postTodoRoute, ht, hu, dbCreateTodo, hdone, decodeDone, hex]
  · rintro b' fault (h | h) <;> simp [postTodoRoute, truthy, h]

/-- C3 witness: `{task:"buy milk", userId:<alice's id>}` against a
one-user store. -/
theorem createTodo_done_defaults_false_witness :
    truthy ((⟨some "buy milk", some 0, none⟩ : CreateTodoBody).task) = true ∧
    (⟨some "buy milk", some 0, none⟩ : CreateTodoBody).userId = some 0 ∧
    (⟨some "buy milk", some 0, none⟩ : CreateTodoBody).done = none ∧
    oneUserState.users.any (fun u => u.id == 0) = true ∧
    ((∃ t : Todo,
      postTodoRoute oneUserState ⟨some "buy milk", some 0, none⟩ none =
        (⟨201, .todo t⟩,
         ⟨oneUserState.users, oneUserState.todos ++ [t],
          oneUserState.nextId + 1⟩, 1) ∧
      t.done = false ∧
      t.task = ((⟨some "buy milk", some 0, none⟩ : CreateTodoBody).task).getD "" ∧
      t.userId = 0) ∧
    (∀ (b' : CreateTodoBody) (fault : Option DbError),
      b'.task = none ∨ b'.userId = none →
      postTodoRoute oneUserState b' fault =
        (⟨400, .err "Task and userId are required"⟩, oneUserState, 0))) :=
  ⟨by decide, rfl, rfl, by decide,
   createTodo_done_defaults_false oneUserState ⟨some "buy milk", some 0, none⟩
     0 (by decide) rfl rfl (by decide)⟩

/-- C6: with the connection-string env var absent or invalid, module
initialization still constructs the pool handle (there is no failure
path: `startupDb` is a total function, and the handle just stores the
unvalidated string), and the configuration error surfaces only as a
connectivity error on the first operation attempted against the pool. -/
theorem pool_startup_lazy (valid : String → Bool) (env : Option String)
    (hbad : valid (resolveConnectionString env) = false) :
    startupDb env = mkPgPool (resolveConnectionString env) ∧
    (startupDb env).connectionString = resolveConnectionString env ∧
    poolFirstOp valid (startupDb env) = .error .connectivity := by
  refine ⟨rfl, rfl, ?_⟩
  simp [poolFirstOp, startupDb, mkPgPool, hbad]

/-- C6 witness: env var absent, store-side validity requiring a
non-empty string. -/
theorem pool_startup_lazy_witness :
    (fun s => !(s == "")) (resolveConnectionString none) = false ∧
    (startupDb none = mkPgPool (resolveConnectionString none) ∧
     (startupDb none).connectionString = resolveConnectionString none ∧
     poolFirstOp (fun s => !(s == "")) (startupDb none) =
       .error .connectivity) :=
  ⟨by decide, pool_startup_lazy (fun s => !(s == "")) none (by decide)⟩

/-- C10 witness: with a string-valued `done` the route issues the call
and answers 500, not 400. -/
theorem todo_done_unvalidated_witness :
    truthy (some "x") = true ∧
    (some (5 : Nat)).isSome = true ∧
    postTodoRoute DBState.init ⟨some "x", some 5, some (.jstr "yes")⟩ none =
      (⟨500, internalErrorBody⟩, DBState.init, 1) :=
  ⟨by decide, by decide,
   (todo_done_unvalidated DBState.init ⟨some "x", some 5, some (.jstr "yes")⟩
      (by decide) (by decide)).2 (.jstr "yes") rfl (by intro bl h; cases h)⟩

/-- Adapter steps preserve referential integrity. -/
theorem fkInv_adapter {s s' : DBState} (hinv : fkInv s)
    (h : AdapterStep s s') : fkInv s' := by
  rcases adapterStep_shape h with he | ⟨u, he⟩ | ⟨t, he, x, hx, hid⟩
  · rw [he]; exact hinv
  · rw [he]
    intro t ht
    obtain ⟨w, hw, hwe⟩ := hinv t ht
    exact ⟨w, List.mem_append_left _ hw, hwe⟩
  · rw [he]
    intro t' ht'
    rcases List.mem_append.mp ht' with hold | hnew
    · exact hinv t' hold
    · have hte : t' = t := List.mem_singleton.mp hnew
      rw [hte]
      exact ⟨x, hx, hid⟩

/-- A successful storage-level delete preserves referential integrity:
`ON DELETE RESTRICT` only lets an unreferenced User go. -/
theorem fkInv_delete {s s' : DBState} {uid : Nat} (hinv : fkInv s)
    (h : dbDeleteUser s uid = .ok s') : fkInv s' := by
  unfold dbDeleteUser at h
  split at h
  · cases h
  · rename_i hr
    injection h with h'
    subst h'
    intro t ht
    obtain ⟨u, hu, he⟩ := hinv t ht
    refine ⟨u, List.mem_filter.mpr ⟨hu, ?_⟩, he⟩
    have hne : t.userId ≠ uid := by
      intro hb
      exact hr (List.any_eq_true.mpr ⟨t, ht, by simpa using hb⟩)
    simp only [he, bne_iff_ne, ne_eq]
    exact hne

/-- Any storage-state transition preserves referential integrity. -/
theorem fkInv_storage {s s' : DBState} (hinv : fkInv s)
    (h : StorageStep s s') : fkInv s' := by
  cases h with
  | adapter ha => exact fkInv_adapter hinv ha
  | delete uid hd => exact fkInv_delete hinv hd

/-- The freshly migrated store satisfies the invariant. -/
theorem fkInv_init : fkInv DBState.init := by
  intro t ht
  cases ht

/-- Referential integrity holds in every reachable store state. -/
theorem reachable_fkInv {s : DBState} (h : Reachable s) : fkInv s := by
  induction h with
  | init => exact fkInv_init
  | step _ hstep ih => exact fkInv_storage ih hstep

/-- C4: in every reachable storage state every Todo's `userId` names an
existing User; a `todo.create` whose `userId` matches no User fails
with a foreign-key violation; the route then leaves the store
unchanged; and deleting a User is refused while Todos reference it. -/
theorem todo_referential_integrity (s : DBState) (hs : Reachable s) :
    fkInv s ∧
    (∀ (task : String) (uid : Nat) (done : Option JVal) (d : Bool),
      decodeDone done = .ok d → (∀ u ∈ s.users, u.id ≠ uid) →
      dbCreateTodo s task uid done = .error .fkViolation) ∧
    (∀ (b : CreateTodoBody) (uid : Nat) (fault : Option DbError),
      b.userId = some uid → (∀ u ∈ s.users, u.id ≠ uid) →
      (postTodoRoute s b fault).2.1 = s) ∧
    (∀ uid : Nat, (∃ t ∈ s.todos, t.userId = uid) →
      dbDeleteUser s uid = .error .fkViolation) := by
  refine ⟨reachable_fkInv hs, ?_, ?_, ?_⟩
  · intro task uid done d hd hne
    have hex : s.users.any (fun u => u.id == uid) = false := by
      rw [List.any_eq_false]
      intro u hu
      simpa using hne u hu
    simp [dbCreateTodo, hd, hex]
  · intro b uid fault hb hne
    by_cases hc : truthy b.task = false ∨ b.userId = none
    · simp [postTodoRoute, hc]
    · cases fault with
      | some e => simp [postTodoRoute, hc]
      | none =>
        cases hdb : dbCreateTodo s (b.task.getD "") (b.userId.getD 0) b.done with
        | error e => simp [postTodoRoute, hc, hdb]
        | ok p =>
          obtain ⟨t, s''⟩ := p
          obtain ⟨-, -, u, hu, he⟩ :=
            dbCreateTodo_ok_inv s (b.task.getD "") (b.userId.getD 0) b.done
              t s'' hdb
          exact absurd (show u.id = uid by rw [hb] at he; simpa using he)
            (hne u hu)
  · rintro uid ⟨t, ht, hteq⟩
    have hr : s.todos.any (fun t => t.userId == uid) = true :=
      List.any_eq_true.mpr ⟨t, ht, by simpa using hteq⟩
    simp [dbDeleteUser, hr]

/-- C4 witness: the contract at the initial (reachable) store. -/
theorem todo_referential_integrity_witness :
    Reachable DBState.init ∧
    (fkInv DBState.init ∧
    (∀ (task : String) (uid : Nat) (done : Option JVal) (d : Bool),
      decodeDone done = .ok d → (∀ u ∈ DBState.init.users, u.id ≠ uid) →
      dbCreateTodo DBState.init task uid done = .error .fkViolation) ∧
    (∀ (b : CreateTodoBody) (uid : Nat) (fault : Option DbError),
      b.userId = some uid → (∀ u ∈ DBState.init.users, u.id ≠ uid) →
      (postTodoRoute DBState.init b fault).2.1 = DBState.init) ∧
    (∀ uid : Nat, (∃ t ∈ DBState.init.todos, t.userId = uid) →
      dbDeleteUser DBState.init uid = .error .fkViolation)) :=
  ⟨Reachable.init, todo_referential_integrity DBState.init Reachable.init⟩

/-- C8: no adapter code path mutates or deletes an existing row — every
handled trigger appends zero or one row to each table, leaving all
previously existing rows in place — and reading the users twice with no
intervening write returns the same records. -/
theorem no_mutation_frame (s s' : DBState) (h : AdapterStep s s') :
    (∃ nu, s'.users = s.users ++ nu) ∧
    (∃ nt, s'.todos = s.todos ++ nt) ∧
    (dbListUsers ((dbListUsers s).2)).1 = (dbListUsers s).1 := by
  rcases adapterStep_shape h with he | ⟨u, he⟩ | ⟨t, he, -⟩
  · rw [he]; exact ⟨⟨[], by simp⟩, ⟨[], by simp⟩, rfl⟩
  · rw [he]; exact ⟨⟨[u], rfl⟩, ⟨[], by simp⟩, rfl⟩
  · rw [he]; exact ⟨⟨[], by simp⟩, ⟨[t], rfl⟩, rfl⟩

/-- C8 witness: the frame property at one concrete SSR render. -/
theorem no_mutation_frame_witness :
    AdapterStep DBState.init (ssrRender DBState.init).2 ∧
    ((∃ nu, (ssrRender DBState.init).2.users = DBState.init.users ++ nu) ∧
     (∃ nt, (ssrRender DBState.init).2.todos = DBState.init.todos ++ nt) ∧
     (dbListUsers ((dbListUsers DBState.init).2)).1 =
       (dbListUsers DBState.init).1) :=
  ⟨AdapterStep.ssr DBState.init,
   no_mutation_frame DBState.init (ssrRender DBState.init).2
     (AdapterStep.ssr DBState.init)⟩

end Monorepo
